import Mathlib

/-
Verification development for the SailCast forecast endpoint
(`src/unnamed/part_000`, the complete variant of `api/forecast.js`).

Embedding conventions:
* JavaScript numbers are modelled as rationals (`ℚ`); the decimal literals of
  the source (`0.539957`, `22.5`, thresholds, defaults) are exact in `ℚ`.
  IEEE-754 double rounding is not modelled.
* A JavaScript value that may be `undefined`/`null` is an `Option`;
  a rejected promise from `Promise.allSettled` is `none`.
* The two upstream fetch results are parameters of the handler: the handler is
  a pure function from (query params, weather outcome, marine outcome) to the
  HTTP response it writes.
* The `updated` ISO timestamp and the locale-formatted day `label` are the only
  response fields left out of the model (wall clock / locale formatting).
* `Math.round`, `toFixed`, `parseFloat`, `parseInt`, string `slice`, the `||`
  fallback and the truthiness checks of the source are modelled explicitly
  below, each as its own definition.
-/

/-- `Math.round`: round half toward positive infinity. -/
def jsRound (q : ℚ) : ℤ := ⌊q + 1/2⌋

/-- `x.toFixed(d)` followed by `parseFloat`: the decimal with `d` fractional
digits nearest to `x`, ties toward positive infinity. -/
def toFixedQ (d : ℕ) (q : ℚ) : ℚ := (⌊q * 10 ^ d + 1/2⌋ : ℚ) / 10 ^ d

/-- `parseFloat((x).toFixed(1))` as used for hourly precipitation. -/
def toFixed1 (q : ℚ) : ℚ := toFixedQ 1 q

/-- `parseFloat((x).toFixed(2))` as used for wave height. -/
def toFixed2 (q : ℚ) : ℚ := toFixedQ 2 q

/-- `Math.min(...)` over a spread integer list (only ever called on a
non-empty list in the source; the `[]` case is unreachable there). -/
def jsMinList (l : List ℤ) : ℤ :=
  match l with
  | [] => 0
  | x :: xs => xs.foldl min x

/-- `Math.max(...)` over a spread integer list (non-empty at every call site). -/
def jsMaxList (l : List ℤ) : ℤ :=
  match l with
  | [] => 0
  | x :: xs => xs.foldl max x

/-- Whitespace skipped by `parseFloat` / `parseInt`. -/
def isWsChar (c : Char) : Bool := c == ' ' || c == '\t' || c == '\n' || c == '\r'

/-- Value of a list of decimal digit characters. -/
def digitsToNat (ds : List Char) : ℕ := ds.foldl (fun a c => a * 10 + (c.toNat - 48)) 0

/-- JavaScript `parseInt` (decimal): skip whitespace, optional sign, longest
digit prefix; `none` models `NaN`. -/
def parseIntJs (s : String) : Option ℤ :=
  let cs := s.toList.dropWhile isWsChar
  let signed : Bool × List Char :=
    match cs with
    | '-' :: rest => (true, rest)
    | '+' :: rest => (false, rest)
    | _ => (false, cs)
  let ds := signed.2.takeWhile Char.isDigit
  if ds.isEmpty then none
  else some ((if signed.1 then -1 else 1) * (digitsToNat ds : ℤ))

/-- The digits recognised by a `parseFloat` scan: sign flag, integer part,
fractional part with its digit count, and an optional signed exponent.
Separated from the rational assembly so that the scan itself is a pure
computation on naturals and characters. -/
structure FloatParts where
  neg : Bool
  ip : ℕ
  fp : ℕ
  fpLen : ℕ
  exp : Option (Bool × ℕ)
deriving DecidableEq

/-- Exponent suffix of a `parseFloat` literal, after the `e`/`E` (sign and
digit value); `none` when no digits follow, in which case `parseFloat`
ignores the suffix. -/
def scanExp (cs : List Char) : Option (Bool × ℕ) :=
  let signed : Bool × List Char :=
    match cs with
    | '-' :: rest => (true, rest)
    | '+' :: rest => (false, rest)
    | _ => (false, cs)
  let ds := signed.2.takeWhile Char.isDigit
  if ds.isEmpty then none else some (signed.1, digitsToNat ds)

/-- JavaScript `parseFloat`, scanning phase: skip whitespace, optional sign,
digits with an optional fractional part and exponent, ignoring trailing
garbage; `none` models `NaN` (no digits at all, e.g. `parseFloat("abc")`).
The non-finite literal `Infinity` is outside the rational model. -/
def parseFloatParts (s : String) : Option FloatParts :=
  let cs := s.toList.dropWhile isWsChar
  let signed : Bool × List Char :=
    match cs with
    | '-' :: rest => (true, rest)
    | '+' :: rest => (false, rest)
    | _ => (false, cs)
  let ip := signed.2.takeWhile Char.isDigit
  let afterInt := signed.2.dropWhile Char.isDigit
  let fpPair : List Char × List Char :=
    match afterInt with
    | '.' :: rest => (rest.takeWhile Char.isDigit, rest.dropWhile Char.isDigit)
    | _ => ([], afterInt)
  if ip.isEmpty ∧ fpPair.1.isEmpty then none
  else
    let expPart : Option (Bool × ℕ) :=
      match fpPair.2 with
      | 'e' :: rest => scanExp rest
      | 'E' :: rest => scanExp rest
      | _ => none
    some ⟨signed.1, digitsToNat ip, digitsToNat fpPair.1, fpPair.1.length, expPart⟩

/-- Rational value of a scanned `parseFloat` literal. -/
def partsToRat (p : FloatParts) : ℚ :=
  let mant : ℚ := (p.ip : ℚ) + (p.fp : ℚ) / (10 : ℚ) ^ p.fpLen
  let mant := if p.neg then -mant else mant
  match p.exp with
  | none => mant
  | some (true, e) => mant / (10 : ℚ) ^ e
  | some (false, e) => mant * (10 : ℚ) ^ e

/-- JavaScript `parseFloat`. -/
def parseFloatJs (s : String) : Option ℚ := (parseFloatParts s).map partsToRat

/-- `parseFloat(req.query.x)`: an absent query parameter is `undefined`,
which `parseFloat` turns into `NaN` (`none`). -/
def parseFloatOpt (q : Option String) : Option ℚ :=
  match q with
  | some s => parseFloatJs s
  | none => none

/-- The `||` fallback on a JavaScript number: `NaN` (`none`) and `0` are
falsy, every other number is kept. -/
def jsOrNum (o : Option ℚ) (d : ℚ) : ℚ :=
  match o with
  | some v => if v = 0 then d else v
  | none => d

/-- The `||` fallback on a possibly-`undefined` string: `undefined` and the
empty string are falsy. -/
def jsOrStr (o : Option String) (d : String) : String :=
  match o with
  | some s => if s = "" then d else s
  | none => d

/-- Line 10: `const lat = parseFloat(req.query.lat) || -37.8676`. -/
def resolveLat (q : Option String) : ℚ := jsOrNum (parseFloatOpt q) (-37.8676)

/-- Line 11: `const lon = parseFloat(req.query.lon) || 144.9741`. -/
def resolveLon (q : Option String) : ℚ := jsOrNum (parseFloatOpt q) 144.9741

/-- `s.slice(a, b)` on the ASCII time strings (code-unit slicing coincides
with character slicing there). -/
def jsSlice (s : String) (a b : ℕ) : String := String.mk ((s.toList.drop a).take (b - a))

/-- Line 33: `time.slice(0, 10)`. -/
def dateOf (t : String) : String := jsSlice t 0 10

/-- Line 34: `parseInt(time.slice(11, 13))`. -/
def parseHourOf (t : String) : Option ℤ := parseIntJs (jsSlice t 11 13)

/-- Whether a raw time string passes the `hour >= 5 && hour <= 22` gate of
line 36 (false when `parseInt` yields `NaN`). -/
def windowedHour (t : String) : Bool :=
  match parseHourOf t with
  | some hr => decide (5 ≤ hr ∧ hr ≤ 22)
  | none => false

/-- Lines 101-109: wave-height estimate from wind speed (km/h), used when
marine data is unavailable. -/
def estimateWaveHeight (ws : ℚ) : ℚ :=
  let k := ws * 0.539957
  if k < 5 then 0.1
  else if k < 10 then 0.2
  else if k < 15 then 0.3 + (k - 10) * 0.04
  else if k < 20 then 0.5 + (k - 15) * 0.06
  else if k < 30 then 0.8 + (k - 20) * 0.07
  else 1.5

/-- Hourly block of the primary weather payload (lines 13 and 29-51).
`time` and `weathercode` are `Option` because the handler explicitly guards
their absence (`weather.hourly.time` feeding `forEach`, and the
`weather.hourly.weathercode ? ... : 0` test); the remaining field arrays are
indexed with an `|| 0` fallback, modelled by `(l.get? i).getD 0`, so
out-of-range indices need no special casing.  A payload missing one of the
non-optional arrays would throw a `TypeError` (caught into the 500 branch)
and is outside the embedding. -/
structure HourlyV where
  time : Option (List String)
  temperature_2m : List ℚ
  wind_speed_10m : List ℚ
  wind_direction_10m : List ℚ
  wind_gusts_10m : List ℚ
  precipitation : List ℚ
  cloud_cover : List ℚ
  weathercode : Option (List ℚ)
deriving DecidableEq

/-- Daily block of the primary weather payload (lines 53, 69, 79-81). -/
structure DailyV where
  time : Option (List String)
  temperature_2m_max : List ℚ
  temperature_2m_min : List ℚ
  precipitation_sum : List ℚ
deriving DecidableEq

/-- A fulfilled primary-provider JSON value: the `error`/`reason` fields of an
Open-Meteo error body, and the optional `hourly`/`daily` blocks. -/
structure WeatherValue where
  error : Bool
  reason : Option String
  hourly : Option HourlyV
  daily : Option DailyV
deriving DecidableEq

/-- Hourly block of the marine payload (line 15): parallel wave arrays whose
entries may be `null` (inner `Option`), each array itself optional. The
`time` array is delivered by the provider but never read by the handler. -/
structure MarineHourly where
  time : Option (List String)
  wave_height : Option (List (Option ℚ))
  wave_direction : Option (List (Option ℚ))
  wave_period : Option (List (Option ℚ))
deriving DecidableEq

/-- A fulfilled marine-provider JSON value. -/
structure MarineValue where
  error : Bool
  reason : Option String
  hourly : Option MarineHourly
deriving DecidableEq

/-- One merged hourly record as pushed on lines 38-49. -/
structure HourRecord where
  h : ℤ
  t : ℤ
  ws : ℤ
  wd : ℤ
  gs : ℤ
  pr : ℚ
  cl : ℤ
  wv : ℚ
  wp : ℤ
  ts : Bool
deriving DecidableEq

/-- One element of the `forecast` array (lines 77-85).  The locale-formatted
`label` is outside the model; `tempMax`/`tempMin` are `Option` because
`Math.round(undefined)` is `NaN` when the daily arrays are shorter than
`daily.time`. -/
structure DaySummary where
  date : String
  tempMax : Option ℤ
  tempMin : Option ℤ
  precipSum : ℚ
  windDesc : String
  summary : String
  hours : List HourRecord
deriving DecidableEq

/-- The success JSON body (lines 88-94); `updated` (wall clock) is outside
the model. -/
structure Payload where
  forecast : List DaySummary
  source : String
  marine_source : String
  location : ℚ × ℚ
deriving DecidableEq

/-- The JSON body written by the handler: success payload or the catch-all
error body `{error, message}` of line 97. -/
inductive ResBody where
  | ok (p : Payload)
  | err (error : String) (message : String)
deriving DecidableEq

/-- The HTTP response produced by one handler invocation. -/
structure Response where
  status : ℕ
  body : ResBody
deriving DecidableEq

/-- Line 46 guard chain
`marine && marine.hourly && marine.hourly.wave_height && marine.hourly.wave_height[i] != null`:
`some v` exactly when every step of the chain is truthy and the entry at `i`
is neither absent nor `null`. -/
def waveHeightAt (mv : Option MarineValue) (i : ℕ) : Option ℚ :=
  match mv with
  | none => none
  | some m =>
    match m.hourly with
    | none => none
    | some mh =>
      match mh.wave_height with
      | none => none
      | some l =>
        match l.get? i with
        | some (some v) => some v
        | _ => none

/-- Line 47 guard chain for `wave_period`. -/
def wavePeriodAt (mv : Option MarineValue) (i : ℕ) : Option ℚ :=
  match mv with
  | none => none
  | some m =>
    match m.hourly with
    | none => none
    | some mh =>
      match mh.wave_period with
      | none => none
      | some l =>
        match l.get? i with
        | some (some v) => some v
        | _ => none

/-- Lines 37-49: the record pushed for hour `hr` at index `i`. -/
def mkHourRecord (hh : HourlyV) (mv : Option MarineValue) (i : ℕ) (hr : ℤ) : HourRecord :=
  { h := hr
    t := jsRound ((hh.temperature_2m.get? i).getD 0)
    ws := jsRound ((hh.wind_speed_10m.get? i).getD 0)
    wd := jsRound ((hh.wind_direction_10m.get? i).getD 0)
    gs := jsRound ((hh.wind_gusts_10m.get? i).getD 0)
    pr := toFixed1 ((hh.precipitation.get? i).getD 0)
    cl := jsRound ((hh.cloud_cover.get? i).getD 0)
    wv :=
      match waveHeightAt mv i with
      | some v => toFixed2 v
      | none => estimateWaveHeight ((hh.wind_speed_10m.get? i).getD 0)
    wp :=
      match wavePeriodAt mv i with
      | some v => jsRound v
      | none => 5
    ts :=
      match (match hh.weathercode with
             | some codes => codes.get? i
             | none => some 0) with
      | some v => decide ((95 : ℚ) ≤ v)
      | none => false }

/-- The `days` object: an association list from date string to the day's
record list (insertion-ordered, like a JS object with string keys). -/
abbrev DaysAcc : Type := List (String × List HourRecord)

/-- Line 35: `if (!days[date]) days[date] = { date, hours: [] }`. -/
def ensureDay (days : DaysAcc) (date : String) : DaysAcc :=
  if days.any (fun p => decide (p.1 = date)) then days else days ++ [(date, [])]

/-- Line 38: `days[date].hours.push(...)`. -/
def pushRec (days : DaysAcc) (date : String) (r : HourRecord) : DaysAcc :=
  days.map (fun p => if p.1 = date then (p.1, p.2 ++ [r]) else p)

/-- Lines 32-51: the body of `hourlyTimes.forEach((time, i) => ...)`. -/
def stepDay (hh : HourlyV) (mv : Option MarineValue) (days : DaysAcc) (it : ℕ × String) : DaysAcc :=
  let date := dateOf it.2
  let days1 := ensureDay days date
  match parseHourOf it.2 with
  | some hr => if 5 ≤ hr ∧ hr ≤ 22 then pushRec days1 date (mkHourRecord hh mv it.1 hr) else days1
  | none => days1

/-- The whole grouping pass over `weather.hourly.time`. -/
def buildDays (hh : HourlyV) (mv : Option MarineValue) (times : List String) : DaysAcc :=
  times.enum.foldl (stepDay hh mv) []

/-- `days[date]` (only the hour list matters downstream). -/
def lookupDays (days : DaysAcc) (date : String) : Option (List HourRecord) :=
  (days.find? (fun p => decide (p.1 = date))).map (·.2)

/-- Line 55: `dd.hours.filter(h => h.h >= 8 && h.h <= 18)`. -/
def daylightOf (hours : List HourRecord) : List HourRecord :=
  hours.filter (fun r => decide (8 ≤ r.h ∧ r.h ≤ 18))

/-- Line 56: the 16-point compass rose. -/
def dirsList : List String :=
  ["N", "NNE", "NE", "ENE", "E", "ESE", "SE", "SSE",
   "S", "SSW", "SW", "WSW", "W", "WNW", "NW", "NNW"]

/-- Line 57: `d => dirs[Math.round(d / 22.5) % 16]`; JS `%` truncates toward
zero, and a negative index reads `undefined`, which the template string
renders as `"undefined"`. -/
def d2c (d : ℤ) : String :=
  let j : ℤ := Int.tmod (jsRound ((d : ℚ) / 22.5)) 16
  if 0 ≤ j then (dirsList.get? j.toNat).getD "undefined" else "undefined"

/-- Line 58: `k => Math.round(k * 0.539957)`. -/
def kphToKt (k : ℚ) : ℤ := jsRound (k * 0.539957)

/-- Lines 60-66: the wind description string. -/
def windDescOf (hours : List HourRecord) : String :=
  match daylightOf hours with
  | [] => ""
  | r0 :: rest =>
    let minW := kphToKt ((jsMinList ((r0 :: rest).map (·.ws)) : ℤ) : ℚ)
    let maxW := kphToKt ((jsMaxList ((r0 :: rest).map (·.ws)) : ℤ) : ℚ)
    let sd := d2c r0.wd
    let ed := d2c (((r0 :: rest).getLast?.getD r0).wd)
    (if sd = ed then sd else sd ++ "→" ++ ed) ++ " " ++ toString minW ++ "–" ++
      toString maxW ++ " kts"

/-- Line 68: mean cloud cover over the daylight window, `0` when empty. -/
def avgClOf (hours : List HourRecord) : ℚ :=
  match daylightOf hours with
  | [] => 0
  | r0 :: rest => (((r0 :: rest).map (·.cl)).sum : ℤ) / (((r0 :: rest).length : ℚ))

/-- Line 70: `dh.some(h => h.ts)`. -/
def hasTsOf (hours : List HourRecord) : Bool := (daylightOf hours).any (·.ts)

/-- Line 71: sky condition from mean cloud cover. -/
def skyOf (hours : List HourRecord) : String :=
  if avgClOf hours > 75 then "Cloudy"
  else if avgClOf hours > 50 then "Mostly cloudy"
  else if avgClOf hours > 25 then "Partly cloudy"
  else "Sunny"

/-- Line 72: rain clause from the day's precipitation sum. -/
def rainOf (p : ℚ) : String :=
  if p > 10 then " Heavy rain."
  else if p > 5 then " Rain likely."
  else if p > 2 then " Showers likely."
  else if p > 0.5 then " Chance of showers."
  else ""

/-- Line 83: `sky + '.' + rain + (hasTs ? ' Thunderstorm risk.' : '')`. -/
def summaryOf (hours : List HourRecord) (pSum : ℚ) : String :=
  skyOf hours ++ "." ++ rainOf pSum ++ (if hasTsOf hours then " Thunderstorm risk." else "")

/-- Lines 53-85: one element of the `forecast` array (label omitted). -/
def mkDaySummary (days : DaysAcc) (d : DailyV) (i : ℕ) (date : String) : DaySummary :=
  let hrs := (lookupDays days date).getD []
  let pSum := (d.precipitation_sum.get? i).getD 0
  { date := date
    tempMax := (d.temperature_2m_max.get? i).map jsRound
    tempMin := (d.temperature_2m_min.get? i).map jsRound
    precipSum := toFixed1 pSum
    windDesc := windDescOf hrs
    summary := summaryOf hrs pSum
    hours := hrs }

/-- The fallible middle of the handler (everything inside the `try` that can
throw): primary-failure check of lines 25-27, the reads of
`weather.hourly.time` and `weather.daily.time` whose absence raises a caught
`TypeError`, then the pure grouping and aggregation. -/
def buildForecastE (wv : Option WeatherValue) (mv : Option MarineValue) :
    Except String (List DaySummary) :=
  match wv with
  | none => Except.error "Weather API failed"
  | some w =>
    if w.error then Except.error (jsOrStr w.reason "Weather API failed")
    else
      match w.hourly with
      | none => Except.error "TypeError: cannot read time of undefined"
      | some hh =>
        match hh.time with
        | none => Except.error "TypeError: cannot read forEach of undefined"
        | some times =>
          match w.daily with
          | none => Except.error "TypeError: cannot read time of undefined"
          | some d =>
            match d.time with
            | none => Except.error "TypeError: cannot read map of undefined"
            | some dtimes =>
              Except.ok
                (dtimes.enum.map (fun it => mkDaySummary (buildDays hh mv times) d it.1 it.2))

/-- Line 91: the `marine_source` response field. -/
def marineSource (mv : Option MarineValue) : String :=
  match mv with
  | some m => if m.error then "Estimated from wind speed" else "ECMWF WAM via Open-Meteo"
  | none => "Estimated from wind speed"

/-- Lines 4-99: the handler as a function of the query parameters and the two
settled fetch outcomes (`none` = rejected promise). A thrown error lands in
the catch block of lines 95-98. -/
def handler (latQ lonQ : Option String) (wv : Option WeatherValue) (mv : Option MarineValue) :
    Response :=
  match buildForecastE wv mv with
  | Except.ok f =>
    { status := 200
      body := ResBody.ok
        { forecast := f
          source := "ECMWF IFS via Open-Meteo"
          marine_source := marineSource mv
          location := (resolveLat latQ, resolveLon lonQ) } }
  | Except.error msg => { status := 500, body := ResBody.err "Failed to fetch forecast" msg }

/-- A minimal concrete hourly block: one entry at 10:00, all measurements 0. -/
def hhMinS : HourlyV :=
  { time := some ["2026-02-10T10:00"]
    temperature_2m := [0]
    wind_speed_10m := [0]
    wind_direction_10m := [0]
    wind_gusts_10m := [0]
    precipitation := [0]
    cloud_cover := [0]
    weathercode := none }

/-- A minimal concrete daily block for the same date. -/
def dMin : DailyV :=
  { time := some ["2026-02-10"]
    temperature_2m_max := [0]
    temperature_2m_min := [0]
    precipitation_sum := [0] }

/-- A minimal successful primary payload. -/
def wMin : WeatherValue :=
  { error := false, reason := none, hourly := some hhMinS, daily := some dMin }

/-- A marine payload that carries an error field yet also wave arrays. -/
def mBad : MarineValue :=
  { error := true
    reason := some "Parameter out of range"
    hourly := some
      { time := some ["2026-02-10T10:00"]
        wave_height := some [some 2]
        wave_direction := none
        wave_period := some [some 4] } }

/-- A healthy marine payload whose time grid matches `hhMinS`. -/
def mGood : MarineValue :=
  { error := false
    reason := none
    hourly := some
      { time := some ["2026-02-10T10:00"]
        wave_height := some [some 1.234]
        wave_direction := some [some 90]
        wave_period := some [some 6.6] } }

/-- An hour record outside the daylight window (hour-of-day 3). -/
def rNight : HourRecord :=
  { h := 3, t := 0, ws := 0, wd := 0, gs := 0, pr := 0, cl := 0, wv := 0.1, wp := 5, ts := false }

/-- The payload the handler produces from `wMin` with no marine data. -/
def plMin : Payload :=
  { forecast := [mkDaySummary (buildDays hhMinS none ["2026-02-10T10:00"]) dMin 0 "2026-02-10"]
    source := "ECMWF IFS via Open-Meteo"
    marine_source := "Estimated from wind speed"
    location := (-37.8676, 144.9741) }

/-- The payload the handler produces from `wMin` with the `mBad` marine body. -/
def plBad : Payload :=
  { forecast :=
      [mkDaySummary (buildDays hhMinS (some mBad) ["2026-02-10T10:00"]) dMin 0 "2026-02-10"]
    source := "ECMWF IFS via Open-Meteo"
    marine_source := "Estimated from wind speed"
    location := (-37.8676, 144.9741) }

/-- A 2-hour weather block (10:00 and 11:00) for the alignment counterexample:
its time grid is longer than `mBad`'s single-entry marine grid. -/
def hhTwo : HourlyV :=
  { time := some ["2026-02-10T10:00", "2026-02-10T11:00"]
    temperature_2m := [0, 0]
    wind_speed_10m := [0, 0]
    wind_direction_10m := [0, 0]
    wind_gusts_10m := [0, 0]
    precipitation := [0, 0]
    cloud_cover := [0, 0]
    weathercode := none }

/-- Hourly block carrying a weathercode array with value 96 at index 0. -/
def hhWc : HourlyV := { hhMinS with weathercode := some [96] }

/-- The alignment condition of the claimed merge rule: the marine frame is
present, its `wave_height` array is non-null, and its time-sequence length
equals the hourly time-sequence length. -/
def marineAligned (hh : HourlyV) (mv : Option MarineValue) : Prop :=
  match mv with
  | none => False
  | some m =>
    match m.hourly with
    | none => False
    | some mh =>
      mh.wave_height ≠ none ∧
        match mh.time, hh.time with
        | some mtimes, some htimes => mtimes.length = htimes.length
        | _, _ => False

/-- Failure of the primary provider as observable in the model: rejected
fetch, fulfilled body carrying an error field, or a missing/malformed hourly
time series. -/
def primaryFails (wv : Option WeatherValue) : Prop :=
  match wv with
  | none => True
  | some w => w.error = true ∨ w.hourly = none ∨ ∃ hh, w.hourly = some hh ∧ hh.time = none

/-- Failure of the marine provider as observable in the model: rejected
fetch or a fulfilled body carrying an error field. -/
def marineFails (mv : Option MarineValue) : Prop :=
  match mv with
  | none => True
  | some m => m.error = true

theorem mem_ensureDay {days : DaysAcc} {date : String} {p : String × List HourRecord}
    (hp : p ∈ ensureDay days date) : p ∈ days ∨ p = (date, []) := by
  unfold ensureDay at hp
  split at hp
  · exact Or.inl hp
  · rcases List.mem_append.mp hp with h | h
    · exact Or.inl h
    · exact Or.inr (List.mem_singleton.mp h)

theorem mem_pushRec {days : DaysAcc} {date : String} {r : HourRecord}
    {p : String × List HourRecord} (hp : p ∈ pushRec days date r) :
    ∃ q ∈ days, p = if q.1 = date then (q.1, q.2 ++ [r]) else q := by
  unfold pushRec at hp
  rcases List.mem_map.mp hp with ⟨q, hq, hfq⟩
  exact ⟨q, hq, hfq.symm⟩

theorem stepDay_records {hh : HourlyV} {mv : Option MarineValue} (P : HourRecord → Prop)
    (hP : ∀ i hr, 5 ≤ hr → hr ≤ 22 → P (mkHourRecord hh mv i hr))
    {acc : DaysAcc} (hacc : ∀ p ∈ acc, ∀ r ∈ p.2, P r) (it : ℕ × String) :
    ∀ p ∈ stepDay hh mv acc it, ∀ r ∈ p.2, P r := by
  intro p hp r hr
  simp only [stepDay] at hp
  cases hph : parseHourOf it.2 with
  | none =>
    simp only [hph] at hp
    rcases mem_ensureDay hp with h | h
    · exact hacc p h r hr
    · rw [h] at hr; simp at hr
  | some hrv =>
    simp only [hph] at hp
    by_cases hw : 5 ≤ hrv ∧ hrv ≤ 22
    · rw [if_pos hw] at hp
      rcases mem_pushRec hp with ⟨q, hq, hpq⟩
      rcases mem_ensureDay hq with hq' | hq'
      · by_cases hqd : q.1 = dateOf it.2
        · rw [if_pos hqd] at hpq
          rw [hpq] at hr
          rcases List.mem_append.mp hr with h | h
          · exact hacc q hq' r h
          · rw [List.mem_singleton.mp h]; exact hP it.1 hrv hw.1 hw.2
        · rw [if_neg hqd] at hpq; rw [hpq] at hr; exact hacc q hq' r hr
      · rw [hq'] at hpq
        simp only [if_pos] at hpq
        rw [hpq] at hr
        simp only [List.nil_append] at hr
        rw [List.mem_singleton.mp hr]
        exact hP it.1 hrv hw.1 hw.2
    · rw [if_neg hw] at hp
      rcases mem_ensureDay hp with h | h
      · exact hacc p h r hr
      · rw [h] at hr; simp at hr

theorem buildDays_records {hh : HourlyV} {mv : Option MarineValue} (P : HourRecord → Prop)
    (hP : ∀ i hr, 5 ≤ hr → hr ≤ 22 → P (mkHourRecord hh mv i hr)) :
    ∀ (l : List (ℕ × String)) (acc : DaysAcc),
      (∀ p ∈ acc, ∀ r ∈ p.2, P r) → ∀ p ∈ l.foldl (stepDay hh mv) acc, ∀ r ∈ p.2, P r := by
  intro l
  induction l with
  | nil => intro acc hacc; simpa using hacc
  | cons it tl ih =>
    intro acc hacc
    simp only [List.foldl_cons]
    exact ih _ (stepDay_records P hP hacc it)

theorem stepDay_empty {hh : HourlyV} {mv : Option MarineValue} {date : String} {acc : DaysAcc}
    (hacc : ∀ hs, (date, hs) ∈ acc → hs = [])
    {it : ℕ × String} (hit : dateOf it.2 = date → windowedHour it.2 = false) :
    ∀ hs, (date, hs) ∈ stepDay hh mv acc it → hs = [] := by
  intro hs hmem
  simp only [stepDay] at hmem
  cases hph : parseHourOf it.2 with
  | none =>
    simp only [hph] at hmem
    rcases mem_ensureDay hmem with h | h
    · exact hacc hs h
    · simp at h; exact h.2
  | some hrv =>
    simp only [hph] at hmem
    by_cases hw : 5 ≤ hrv ∧ hrv ≤ 22
    · rw [if_pos hw] at hmem
      by_cases hd : dateOf it.2 = date
      · exfalso
        have hfalse := hit hd
        simp [windowedHour, hph, hw] at hfalse
      · rcases mem_pushRec hmem with ⟨q, hq, hpq⟩
        by_cases hqd : q.1 = dateOf it.2
        · exfalso
          rw [if_pos hqd] at hpq
          have h1 : date = q.1 := congrArg Prod.fst hpq
          exact hd (by rw [← hqd, ← h1])
        · rw [if_neg hqd] at hpq
          rcases mem_ensureDay hq with h | h
          · exact hacc hs (hpq ▸ h)
          · exfalso
            rw [h] at hpq
            have h1 : date = dateOf it.2 := congrArg Prod.fst hpq
            exact hd h1.symm
    · rw [if_neg hw] at hmem
      rcases mem_ensureDay hmem with h | h
      · exact hacc hs h
      · simp at h; exact h.2

theorem buildDays_empty {hh : HourlyV} {mv : Option MarineValue} {date : String} :
    ∀ (l : List (ℕ × String)) (acc : DaysAcc),
      (∀ hs, (date, hs) ∈ acc → hs = []) →
      (∀ it ∈ l, dateOf it.2 = date → windowedHour it.2 = false) →
      ∀ hs, (date, hs) ∈ l.foldl (stepDay hh mv) acc → hs = [] := by
  intro l
  induction l with
  | nil => intro acc hacc _; simpa using hacc
  | cons it tl ih =>
    intro acc hacc hl
    simp only [List.foldl_cons]
    exact ih _ (stepDay_empty hacc (hl it (List.mem_cons_self it tl)))
      (fun jt hjt => hl jt (List.mem_cons_of_mem it hjt))

theorem lookupDays_empty {days : DaysAcc} {date : String}
    (hinv : ∀ hs, (date, hs) ∈ days → hs = []) :
    (lookupDays days date).getD [] = [] := by
  unfold lookupDays
  cases hf : days.find? (fun p => decide (p.1 = date)) with
  | none => rfl
  | some q =>
    have hmem := List.mem_of_find?_eq_some hf
    have hpred := List.find?_some hf
    have hq1 : q.1 = date := by simpa using hpred
    obtain ⟨a, b⟩ := q
    simp only at hq1
    subst hq1
    simpa using hinv b hmem

theorem mem_of_lookupDays {days : DaysAcc} {date : String} {r : HourRecord}
    (hr : r ∈ (lookupDays days date).getD []) :
    ∃ p ∈ days, r ∈ p.2 := by
  unfold lookupDays at hr
  cases hf : days.find? (fun p => decide (p.1 = date)) with
  | none => rw [hf] at hr; simp at hr
  | some q =>
    rw [hf] at hr
    exact ⟨q, List.mem_of_find?_eq_some hf, by simpa using hr⟩

theorem mem_of_mem_enumFrom {α : Type _} {x : ℕ × α} :
    ∀ {n : ℕ} {l : List α}, x ∈ l.enumFrom n → x.2 ∈ l := by
  intro n l
  induction l generalizing n with
  | nil => intro hx; simp [List.enumFrom] at hx
  | cons a tl ih =>
    intro hx
    rw [List.enumFrom] at hx
    rcases List.mem_cons.mp hx with h | h
    · rw [h]; exact List.mem_cons_self a tl
    · exact List.mem_cons_of_mem a (ih h)

theorem mem_of_mem_enum {α : Type _} {x : ℕ × α} {l : List α} (h : x ∈ l.enum) : x.2 ∈ l :=
  mem_of_mem_enumFrom h

theorem buildForecastE_ok {wv : Option WeatherValue} {mv : Option MarineValue}
    {f : List DaySummary} (h : buildForecastE wv mv = Except.ok f) :
    ∃ w hh times d dtimes, wv = some w ∧ w.error = false ∧ w.hourly = some hh ∧
      hh.time = some times ∧ w.daily = some d ∧ d.time = some dtimes ∧
      f = dtimes.enum.map (fun it => mkDaySummary (buildDays hh mv times) d it.1 it.2) := by
  cases wv with
  | none => simp [buildForecastE] at h
  | some w =>
    cases herr : w.error with
    | true => simp [buildForecastE, herr] at h
    | false =>
      cases hhh : w.hourly with
      | none => simp [buildForecastE, herr, hhh] at h
      | some hh =>
        cases ht : hh.time with
        | none => simp [buildForecastE, herr, hhh, ht] at h
        | some times =>
          cases hd : w.daily with
          | none => simp [buildForecastE, herr, hhh, ht, hd] at h
          | some d =>
            cases hdt : d.time with
            | none => simp [buildForecastE, herr, hhh, ht, hd, hdt] at h
            | some dtimes =>
              refine ⟨w, hh, times, d, dtimes, rfl, herr, hhh, ht, hd, hdt, ?_⟩
              simp [buildForecastE, herr, hhh, ht, hd, hdt] at h
              exact h.symm

theorem handler_ok {latQ lonQ : Option String} {wv : Option WeatherValue}
    {mv : Option MarineValue} {pl : Payload}
    (h : (handler latQ lonQ wv mv).body = ResBody.ok pl) :
    buildForecastE wv mv = Except.ok pl.forecast ∧
    (handler latQ lonQ wv mv).status = 200 ∧
    pl.marine_source = marineSource mv ∧
    pl.location = (resolveLat latQ, resolveLon lonQ) := by
  cases hb : buildForecastE wv mv with
  | error msg => simp [handler, hb] at h
  | ok f =>
    simp only [handler, hb] at h
    rw [ResBody.ok.injEq] at h
    subst h
    exact ⟨rfl, by simp [handler, hb], rfl, rfl⟩

theorem estimateWaveHeight_le (w : ℚ) : estimateWaveHeight w ≤ 3/2 := by
  simp only [estimateWaveHeight]
  split_ifs <;> linarith


theorem parseFloatJs_zero : parseFloatJs "0" = some 0 := by
  show (parseFloatParts "0").map partsToRat = some 0
  rw [show parseFloatParts "0" = some ⟨false, 0, 0, 0, none⟩ from by decide]
  show some (partsToRat ⟨false, 0, 0, 0, none⟩) = some 0
  norm_num [partsToRat]

theorem handler_err {latQ lonQ : Option String} {wv : Option WeatherValue}
    {mv : Option MarineValue} {msg : String}
    (hb : buildForecastE wv mv = Except.error msg) :
    (handler latQ lonQ wv mv).status = 500 ∧
    (handler latQ lonQ wv mv).body = ResBody.err "Failed to fetch forecast" msg := by
  constructor <;> simp [handler, hb]

set_option maxHeartbeats 1600000 in
/-- C5: `estimateWaveHeight` is monotonically non-decreasing in the wind
speed, and with kt = w × 0.539957 it takes exactly the spec's piecewise
values on each knot band: kt<5 → 0.1, [5,10) → 0.2,
[10,15) → 0.3+(kt−10)×0.04, [15,20) → 0.5+(kt−15)×0.06,
[20,30) → 0.8+(kt−20)×0.07, kt≥30 → 1.5. -/
theorem C5_estimator_monotone :
    (∀ w1 w2 : ℚ, w1 < w2 → estimateWaveHeight w1 ≤ estimateWaveHeight w2) ∧
    (∀ w : ℚ,
      (w * 0.539957 < 5 → estimateWaveHeight w = 0.1) ∧
      (5 ≤ w * 0.539957 → w * 0.539957 < 10 → estimateWaveHeight w = 0.2) ∧
      (10 ≤ w * 0.539957 → w * 0.539957 < 15 →
        estimateWaveHeight w = 0.3 + (w * 0.539957 - 10) * 0.04) ∧
      (15 ≤ w * 0.539957 → w * 0.539957 < 20 →
        estimateWaveHeight w = 0.5 + (w * 0.539957 - 15) * 0.06) ∧
      (20 ≤ w * 0.539957 → w * 0.539957 < 30 →
        estimateWaveHeight w = 0.8 + (w * 0.539957 - 20) * 0.07) ∧
      (30 ≤ w * 0.539957 → estimateWaveHeight w = 1.5)) := by
  constructor
  · intro w1 w2 h
    have hk : w1 * 0.539957 ≤ w2 * 0.539957 :=
      mul_le_mul_of_nonneg_right h.le (by norm_num)
    simp only [estimateWaveHeight]
    split_ifs <;> linarith
  · intro w
    refine ⟨?_, ?_, ?_, ?_, ?_, ?_⟩ <;>
      · intros
        simp only [estimateWaveHeight]
        split_ifs <;> linarith

/-- C5 witness: monotonicity at 10 < 20 km/h and the second band's value at
10 km/h (kt = 5.39957). -/
theorem C5_witness :
    estimateWaveHeight 10 ≤ estimateWaveHeight 20 ∧ estimateWaveHeight 10 = 0.2 := by
  constructor
  · exact C5_estimator_monotone.1 10 20 (by norm_num)
  · exact (C5_estimator_monotone.2 10).2.1 (by norm_num) (by norm_num)

/-- C7: the day summary is the sky condition, a period, the rain clause and
the optional thunderstorm clause; the rain clause is determined by the day's
precipitation sum exactly as claimed: >10 → " Heavy rain.", >5 →
" Rain likely.", >2 → " Showers likely.", >0.5 → " Chance of showers.",
else the empty string. -/
theorem C7_rain_clause :
    (∀ (hours : List HourRecord) (p : ℚ),
      summaryOf hours p =
        skyOf hours ++ "." ++ rainOf p ++
          (if hasTsOf hours then " Thunderstorm risk." else "")) ∧
    (∀ p : ℚ,
      (10 < p → rainOf p = " Heavy rain.") ∧
      (5 < p → p ≤ 10 → rainOf p = " Rain likely.") ∧
      (2 < p → p ≤ 5 → rainOf p = " Showers likely.") ∧
      (0.5 < p → p ≤ 2 → rainOf p = " Chance of showers.") ∧
      (p ≤ 0.5 → rainOf p = "")) := by
  constructor
  · intro hours p; rfl
  · intro p
    refine ⟨?_, ?_, ?_, ?_, ?_⟩ <;>
      · intros
        simp only [rainOf]
        split_ifs <;> first | rfl | linarith

/-- C7 witness: the summary decomposition on an empty hour list and the
rain clause at precipitation sum 7. -/
theorem C7_witness :
    summaryOf [] 7 =
      skyOf [] ++ "." ++ rainOf 7 ++ (if hasTsOf [] then " Thunderstorm risk." else "") ∧
    rainOf (7 : ℚ) = " Rain likely." :=
  ⟨C7_rain_clause.1 [] 7, (C7_rain_clause.2 7).2.1 (by norm_num) (by norm_num)⟩

/-- C8: an hour record's thunderstorm flag is true exactly when the hourly
weather code at its index is at least 95, and when the weathercode field is
absent from the payload the flag is false for every hour (the substituted
code 0 is below 95), with no error raised (the builder is total). -/
theorem C8_thunderstorm_flag (hh : HourlyV) (mv : Option MarineValue) (i : ℕ) (hr : ℤ) :
    (hh.weathercode = none → (mkHourRecord hh mv i hr).ts = false) ∧
    (∀ codes v, hh.weathercode = some codes → codes.get? i = some v →
      ((mkHourRecord hh mv i hr).ts = true ↔ 95 ≤ v)) := by
  constructor
  · intro hwc
    simp only [mkHourRecord, hwc, decide_eq_false_iff_not]
    norm_num
  · intro codes v hwc hv
    simp only [mkHourRecord, hwc, hv, decide_eq_true_eq]

/-- C8 witness: flag false at hour 10 of `hhMinS` (no weathercode field);
with a weathercode array holding 96 the flag is equivalent to 95 ≤ 96. -/
theorem C8_witness :
    (mkHourRecord hhMinS none 0 10).ts = false ∧
    ((mkHourRecord hhWc none 0 10).ts = true ↔ (95 : ℚ) ≤ 96) :=
  ⟨(C8_thunderstorm_flag hhMinS none 0 10).1 rfl,
   (C8_thunderstorm_flag hhWc none 0 10).2 [96] 96 rfl rfl⟩

/-- C6: every hour record of every day of a successful response has
hour-of-day in [5, 22]; and the wind description, sky condition and summary
are functions of the daylight-window ([8, 18]) records alone (given the same
precipitation sum for the summary), so hours outside [8, 18] never affect
them. -/
theorem C6_window_filters :
    (∀ (latQ lonQ : Option String) (wv : Option WeatherValue) (mv : Option MarineValue)
      (pl : Payload), (handler latQ lonQ wv mv).body = ResBody.ok pl →
      ∀ ds ∈ pl.forecast, ∀ r ∈ ds.hours, 5 ≤ r.h ∧ r.h ≤ 22) ∧
    (∀ hs1 hs2 : List HourRecord, daylightOf hs1 = daylightOf hs2 →
      windDescOf hs1 = windDescOf hs2 ∧ skyOf hs1 = skyOf hs2 ∧
      ∀ p : ℚ, summaryOf hs1 p = summaryOf hs2 p) := by
  constructor
  · intro latQ lonQ wv mv pl hbody ds hds r hr
    obtain ⟨hbf, -, -, -⟩ := handler_ok hbody
    obtain ⟨w, hh, times, d, dtimes, -, -, -, -, -, -, hf⟩ := buildForecastE_ok hbf
    rw [hf] at hds
    rcases List.mem_map.mp hds with ⟨it, -, hds'⟩
    rw [← hds'] at hr
    have hr' : r ∈ (lookupDays (buildDays hh mv times) it.2).getD [] := hr
    obtain ⟨p, hp, hrp⟩ := mem_of_lookupDays hr'
    exact buildDays_records (fun r => 5 ≤ r.h ∧ r.h ≤ 22)
      (fun i hrv h5 h22 => ⟨h5, h22⟩) times.enum [] (by simp) p hp r hrp
  · intro hs1 hs2 hfil
    have hw : windDescOf hs1 = windDescOf hs2 := by
      simp only [windDescOf, hfil]
    have hsky : skyOf hs1 = skyOf hs2 := by
      simp only [skyOf, avgClOf, hfil]
    have hts : hasTsOf hs1 = hasTsOf hs2 := by
      simp only [hasTsOf, hfil]
    exact ⟨hw, hsky, fun p => by simp only [summaryOf, hsky, hts]⟩

/-- C6 witness: the hour-10 record produced from `wMin` lies in [5, 22], and
adding a 03:00 record (outside [8, 18]) leaves the wind description
unchanged. -/
theorem C6_witness :
    (5 ≤ (mkHourRecord hhMinS none 0 10).h ∧ (mkHourRecord hhMinS none 0 10).h ≤ 22) ∧
    windDescOf [rNight] = windDescOf [] := by
  constructor
  · exact C6_window_filters.1 none none (some wMin) none plMin rfl
      (mkDaySummary (buildDays hhMinS none ["2026-02-10T10:00"]) dMin 0 "2026-02-10")
      (List.Mem.head _) (mkHourRecord hhMinS none 0 10) (List.Mem.head _)
  · exact (C6_window_filters.2 [rNight] [] rfl).1

/-- C9: a date whose hourly timestamps never fall in the [5, 22] operating
window still gets a day summary with an empty hours list and an empty wind
description; the aggregation is a total function, so nothing is thrown. -/
theorem C9_empty_day (hh : HourlyV) (mv : Option MarineValue) (d : DailyV)
    (times : List String) (i : ℕ) (date : String)
    (hnone : ∀ t ∈ times, dateOf t = date → windowedHour t = false) :
    (mkDaySummary (buildDays hh mv times) d i date).hours = [] ∧
    (mkDaySummary (buildDays hh mv times) d i date).windDesc = "" := by
  have hempty : ∀ hs, (date, hs) ∈ buildDays hh mv times → hs = [] := by
    intro hs hmem
    exact buildDays_empty times.enum [] (by simp)
      (fun it hit hdate => hnone it.2 (mem_of_mem_enum hit) hdate) hs hmem
  have hhours : (lookupDays (buildDays hh mv times) date).getD [] = [] :=
    lookupDays_empty hempty
  constructor
  · exact hhours
  · show windDescOf ((lookupDays (buildDays hh mv times) date).getD []) = ""
    rw [hhours]
    rfl

/-- C9 witness: a lone 03:00 entry (outside the operating window) yields an
empty hours list and empty wind description for its date. -/
theorem C9_witness :
    (mkDaySummary (buildDays hhMinS none ["2026-02-10T03:00"]) dMin 0 "2026-02-10").hours = [] ∧
    (mkDaySummary (buildDays hhMinS none ["2026-02-10T03:00"]) dMin 0
        "2026-02-10").windDesc = "" :=
  C9_empty_day hhMinS none dMin ["2026-02-10T03:00"] 0 "2026-02-10" (by decide)

/-- C1 counterexample: the claimed merge rule conditions marine use on the
two time grids having equal length, with the estimator and period 5
otherwise.  The code never compares lengths: with a 2-entry hourly grid and
a single-entry marine grid (`mBad`), the record at index 0 still takes
wave period `Math.round(4) = 4` and wave height `toFixed2 2 = 2` from the
marine arrays, not the claimed fallback values. -/
theorem C1_counterexample :
    ¬ (∀ (hh : HourlyV) (mv : Option MarineValue) (times : List String),
        ∀ p ∈ buildDays hh mv times, ∀ r ∈ p.2, ∃ i : ℕ,
          (marineAligned hh mv →
            (∀ v, waveHeightAt mv i = some v → r.wv = toFixed2 v) ∧
            (∀ v, wavePeriodAt mv i = some v → r.wp = jsRound v)) ∧
          (¬ marineAligned hh mv →
            r.wv = estimateWaveHeight ((hh.wind_speed_10m.get? i).getD 0) ∧ r.wp = 5)) := by
  intro hcl
  obtain ⟨i, -, helse⟩ :=
    hcl hhTwo (some mBad) ["2026-02-10T10:00", "2026-02-10T11:00"]
      ("2026-02-10",
        [mkHourRecord hhTwo (some mBad) 0 10, mkHourRecord hhTwo (some mBad) 1 11])
      (List.Mem.head _) (mkHourRecord hhTwo (some mBad) 0 10) (List.Mem.head _)
  have hna : ¬ marineAligned hhTwo (some mBad) := by
    intro hal
    simp only [marineAligned, mBad, hhTwo] at hal
    exact absurd hal.2 (by norm_num)
  have h5 := (helse hna).2
  have h4 : (mkHourRecord hhTwo (some mBad) 0 10).wp = 4 := by
    show jsRound (4 : ℚ) = 4
    norm_num [jsRound]
  rw [h4] at h5
  norm_num at h5

/-- C1 (amended): the merge is decided per index, with no comparison of the
marine and hourly time-grid lengths.  Every hour record produced by the
grouping pass carries, for its index `i`: wave height
`toFixed2 marine.wave_height[i]` whenever the chain
marine → hourly → wave_height → non-null entry at `i` holds
(`waveHeightAt = some`), else `estimateWaveHeight (wind_speed[i] || 0)`;
and wave period `Math.round marine.wave_period[i]` under the analogous
per-index chain on wave_period, else 5. -/
theorem C1_merge_amended (hh : HourlyV) (mv : Option MarineValue) (times : List String) :
    ∀ p ∈ buildDays hh mv times, ∀ r ∈ p.2, ∃ i : ℕ,
      (∀ v, waveHeightAt mv i = some v → r.wv = toFixed2 v) ∧
      (waveHeightAt mv i = none →
        r.wv = estimateWaveHeight ((hh.wind_speed_10m.get? i).getD 0)) ∧
      (∀ v, wavePeriodAt mv i = some v → r.wp = jsRound v) ∧
      (wavePeriodAt mv i = none → r.wp = 5) := by
  intro p hp r hr
  refine buildDays_records
    (fun r => ∃ i : ℕ,
      (∀ v, waveHeightAt mv i = some v → r.wv = toFixed2 v) ∧
      (waveHeightAt mv i = none →
        r.wv = estimateWaveHeight ((hh.wind_speed_10m.get? i).getD 0)) ∧
      (∀ v, wavePeriodAt mv i = some v → r.wp = jsRound v) ∧
      (wavePeriodAt mv i = none → r.wp = 5))
    ?_ times.enum [] (by simp) p hp r hr
  intro i hrv h5 h22
  refine ⟨i, ?_, ?_, ?_, ?_⟩
  · intro v hv; simp only [mkHourRecord, hv]
  · intro hv; simp only [mkHourRecord, hv]
  · intro v hv; simp only [mkHourRecord, hv]
  · intro hv; simp only [mkHourRecord, hv]

/-- C1 witness: the single record built from `hhMinS` against the healthy
marine payload `mGood` satisfies the per-index merge equations. -/
theorem C1_witness :
    ∃ i : ℕ,
      (∀ v, waveHeightAt (some mGood) i = some v →
        (mkHourRecord hhMinS (some mGood) 0 10).wv = toFixed2 v) ∧
      (waveHeightAt (some mGood) i = none →
        (mkHourRecord hhMinS (some mGood) 0 10).wv =
          estimateWaveHeight ((hhMinS.wind_speed_10m.get? i).getD 0)) ∧
      (∀ v, wavePeriodAt (some mGood) i = some v →
        (mkHourRecord hhMinS (some mGood) 0 10).wp = jsRound v) ∧
      (wavePeriodAt (some mGood) i = none → (mkHourRecord hhMinS (some mGood) 0 10).wp = 5) :=
  C1_merge_amended hhMinS (some mGood) ["2026-02-10T10:00"]
    ("2026-02-10", [mkHourRecord hhMinS (some mGood) 0 10]) (List.Mem.head _)
    (mkHourRecord hhMinS (some mGood) 0 10) (List.Mem.head _)

/-- C2 counterexample: the claim demands a 400 response with an error body
for `lat=abc`; with a healthy primary payload the handler responds 200. -/
theorem C2_counterexample :
    ¬ (∀ (lonQ : Option String) (wv : Option WeatherValue) (mv : Option MarineValue),
        (handler (some "abc") lonQ wv mv).status = 400 ∧
        ∃ e msg, (handler (some "abc") lonQ wv mv).body = ResBody.err e msg) := by
  intro hcl
  have h := (hcl none (some wMin) none).1
  rw [show (handler (some "abc") none (some wMin) none).status = 200 from rfl] at h
  norm_num at h

/-- C2 (amended): a `lat` that does not parse to a finite number is not
rejected: `parseFloat` yields `NaN`, the `||` fallback substitutes the
default latitude −37.8676, and the request proceeds exactly as if `lat` were
absent (200 on primary success, 500 on primary failure); no fatal exception
escapes and no 400 is produced. -/
theorem C2_invalid_lat_defaulted (lonQ : Option String) (wv : Option WeatherValue)
    (mv : Option MarineValue) :
    handler (some "abc") lonQ wv mv = handler none lonQ wv mv ∧
    ((handler (some "abc") lonQ wv mv).status = 200 ∨
      (handler (some "abc") lonQ wv mv).status = 500) ∧
    (∀ pl, (handler (some "abc") lonQ wv mv).body = ResBody.ok pl →
      pl.location.1 = -37.8676) := by
  refine ⟨rfl, ?_, ?_⟩
  · cases hb : buildForecastE wv mv with
    | ok f => left; simp [handler, hb]
    | error msg => right; simp [handler, hb]
  · intro pl hbody
    obtain ⟨-, -, -, hloc⟩ := handler_ok hbody
    rw [hloc]
    rfl

/-- C2 witness: with `lat=abc` and a healthy primary payload the response
equals the default-location response and carries the default latitude. -/
theorem C2_witness :
    handler (some "abc") none (some wMin) none = handler none none (some wMin) none ∧
    plMin.location.1 = -37.8676 := by
  have h := C2_invalid_lat_defaulted none (some wMin) none
  exact ⟨h.1, h.2.2 plMin rfl⟩

/-- C3 counterexample: the claim demands a 502-class status on primary
failure; the handler's catch block answers 500 (a rejected primary fetch is
shown). -/
theorem C3_counterexample :
    ¬ (∀ (latQ lonQ : Option String) (wv : Option WeatherValue) (mv : Option MarineValue),
        primaryFails wv →
        (handler latQ lonQ wv mv).status = 502 ∧
        ∃ e msg, (handler latQ lonQ wv mv).body = ResBody.err e msg) := by
  intro hcl
  have h := (hcl none none none none trivial).1
  rw [show (handler none none none none).status = 500 from rfl] at h
  norm_num at h

/-- C3 (amended): every primary failure (rejected fetch, error-carrying
body, or missing hourly block / hourly time series) is fatal: the handler
responds 500 with the error body `{error: "Failed to fetch forecast",
message}`, and no forecast is produced. -/
theorem C3_primary_fatal (latQ lonQ : Option String) (wv : Option WeatherValue)
    (mv : Option MarineValue) (hfail : primaryFails wv) :
    (handler latQ lonQ wv mv).status = 500 ∧
    ∃ msg, (handler latQ lonQ wv mv).body = ResBody.err "Failed to fetch forecast" msg := by
  cases wv with
  | none =>
    have hb : buildForecastE none mv = Except.error "Weather API failed" := rfl
    exact ⟨(handler_err hb).1, _, (handler_err hb).2⟩
  | some w =>
    simp only [primaryFails] at hfail
    cases herr : w.error with
    | true =>
      have hb : buildForecastE (some w) mv =
          Except.error (jsOrStr w.reason "Weather API failed") := by
        simp [buildForecastE, herr]
      exact ⟨(handler_err hb).1, _, (handler_err hb).2⟩
    | false =>
      rcases hfail with herr2 | hhn | ⟨hh, hhs, htn⟩
      · rw [herr] at herr2; exact absurd herr2 (by norm_num)
      · have hb : buildForecastE (some w) mv =
            Except.error "TypeError: cannot read time of undefined" := by
          simp [buildForecastE, herr, hhn]
        exact ⟨(handler_err hb).1, _, (handler_err hb).2⟩
      · have hb : buildForecastE (some w) mv =
            Except.error "TypeError: cannot read forEach of undefined" := by
          simp [buildForecastE, herr, hhs, htn]
        exact ⟨(handler_err hb).1, _, (handler_err hb).2⟩

/-- C3 witness: a rejected primary fetch yields the 500 error response. -/
theorem C3_witness :
    (handler none none none none).status = 500 ∧
    ∃ msg, (handler none none none none).body = ResBody.err "Failed to fetch forecast" msg :=
  C3_primary_fatal none none none none trivial

/-- C4 counterexample: the claim asserts that whenever the marine provider
fails (including a fulfilled body carrying an error field) the forecast uses
the wave estimator.  `mBad` carries `error: true` together with wave arrays:
`marine_source` says "Estimated from wind speed", yet the hour record's wave
height is `toFixed2 2 = 2`, which exceeds the estimator's 1.5 m ceiling, so
it is no estimator output. -/
theorem C4_counterexample :
    ¬ (∀ (latQ lonQ : Option String) (wv : Option WeatherValue) (mv : Option MarineValue)
        (pl : Payload), marineFails mv → (handler latQ lonQ wv mv).body = ResBody.ok pl →
        (handler latQ lonQ wv mv).status = 200 ∧
        pl.marine_source = "Estimated from wind speed" ∧
        ∀ ds ∈ pl.forecast, ∀ r ∈ ds.hours, ∃ wspd : ℚ, r.wv = estimateWaveHeight wspd) := by
  intro hcl
  obtain ⟨-, -, h3⟩ := hcl none none (some wMin) (some mBad) plBad rfl rfl
  obtain ⟨wspd, hw⟩ :=
    h3 (mkDaySummary (buildDays hhMinS (some mBad) ["2026-02-10T10:00"]) dMin 0 "2026-02-10")
      (List.Mem.head _) (mkHourRecord hhMinS (some mBad) 0 10) (List.Mem.head _)
  have h2 : (mkHourRecord hhMinS (some mBad) 0 10).wv = 2 := by
    show toFixed2 2 = 2
    norm_num [toFixed2, toFixedQ]
  rw [h2] at hw
  have hle := estimateWaveHeight_le wspd
  rw [← hw] at hle
  norm_num at hle

/-- C4 (amended): a marine failure (rejected fetch or error-carrying body)
never aborts the request: given primary success the response is 200 and
`marine_source = "Estimated from wind speed"`.  The estimator (with fallback
period 5) is used at an index exactly when the marine response offers no
usable wave value there — in particular for every hour when the marine fetch
was rejected.  An error-carrying marine body that still contains wave arrays
has its values used (see the counterexample). -/
theorem C4_marine_tolerated (latQ lonQ : Option String) (wv : Option WeatherValue)
    (mv : Option MarineValue) (hfail : marineFails mv) :
    (∀ pl, (handler latQ lonQ wv mv).body = ResBody.ok pl →
      (handler latQ lonQ wv mv).status = 200 ∧
      pl.marine_source = "Estimated from wind speed") ∧
    (mv = none → ∀ (hh : HourlyV) (times : List String),
      ∀ p ∈ buildDays hh none times, ∀ r ∈ p.2,
        ∃ i : ℕ, r.wv = estimateWaveHeight ((hh.wind_speed_10m.get? i).getD 0) ∧ r.wp = 5) := by
  constructor
  · intro pl hbody
    obtain ⟨-, hstat, hms, -⟩ := handler_ok hbody
    refine ⟨hstat, ?_⟩
    rw [hms]
    cases mv with
    | none => rfl
    | some m =>
      simp only [marineFails] at hfail
      simp [marineSource, hfail]
  · rintro rfl hh times p hp r hr
    refine buildDays_records
      (fun r => ∃ i : ℕ,
        r.wv = estimateWaveHeight ((hh.wind_speed_10m.get? i).getD 0) ∧ r.wp = 5)
      ?_ times.enum [] (by simp) p hp r hr
    intro i hrv h5 h22
    exact ⟨i, rfl, rfl⟩

/-- C4 witness: with the marine fetch rejected and `wMin` as primary, the
response is 200 with the estimation marker, and the hour record carries
estimator values. -/
theorem C4_witness :
    ((handler none none (some wMin) none).status = 200 ∧
      plMin.marine_source = "Estimated from wind speed") ∧
    ∃ i : ℕ,
      (mkHourRecord hhMinS none 0 10).wv =
        estimateWaveHeight ((hhMinS.wind_speed_10m.get? i).getD 0) ∧
      (mkHourRecord hhMinS none 0 10).wp = 5 := by
  have h := C4_marine_tolerated none none (some wMin) none trivial
  exact ⟨h.1 plMin rfl,
    h.2 rfl hhMinS ["2026-02-10T10:00"]
      ("2026-02-10", [mkHourRecord hhMinS none 0 10]) (List.Mem.head _)
      (mkHourRecord hhMinS none 0 10) (List.Mem.head _)⟩

/-- C10: a `lat` or `lon` query value of exactly `0` parses to the falsy
number 0, so the `||` fallback replaces it with the defaults −37.8676 and
144.9741: the request behaves exactly like one with no coordinates at all. -/
theorem C10_zero_coordinates_defaulted (wv : Option WeatherValue) (mv : Option MarineValue) :
    handler (some "0") (some "0") wv mv = handler none none wv mv ∧
    (∀ pl, (handler (some "0") (some "0") wv mv).body = ResBody.ok pl →
      pl.location = (-37.8676, 144.9741)) := by
  have hlat : resolveLat (some "0") = resolveLat none := by
    show jsOrNum (parseFloatJs "0") (-37.8676) = jsOrNum none (-37.8676)
    rw [parseFloatJs_zero]
    simp [jsOrNum]
  have hlon : resolveLon (some "0") = resolveLon none := by
    show jsOrNum (parseFloatJs "0") 144.9741 = jsOrNum none 144.9741
    rw [parseFloatJs_zero]
    simp [jsOrNum]
  constructor
  · simp only [handler, hlat, hlon]
  · intro pl hbody
    obtain ⟨-, -, -, hloc⟩ := handler_ok hbody
    rw [hloc, hlat, hlon]
    rfl

/-- C10 witness: with `lat=0&lon=0` and a healthy primary payload the
response equals the no-coordinates response and reports the default
location. -/
theorem C10_witness :
    handler (some "0") (some "0") (some wMin) none = handler none none (some wMin) none ∧
    plMin.location = (-37.8676, 144.9741) := by
  have h := C10_zero_coordinates_defaulted (some wMin) none
  refine ⟨h.1, h.2 plMin ?_⟩
  rw [h.1]
  rfl
